import Mathlib

/-! Verification of the rusty_socks SOCKS5 proxy against its specification.

This file shallowly embeds the pure computational content of the source
files under src/ (helpers.rs, handshake.rs, request.rs, connection.rs,
pump.rs, custom_pump.rs, copy_pump.rs, buffer_pool.rs, main.rs) as
executable Lean definitions, and proves or refutes the specification
claims about them.  Machine integers are modelled as Nat with explicit
truncation where the source can overflow; fallible Rust code returning
Res<T> is modelled with Except String; a Rust panic is modelled as the
none case of Option.
-/

deriving instance DecidableEq for Except

namespace RustySocks

/-- From src/helpers.rs, Helpers::port_to_bytes: `((port >> 8) as u8, (port & 0xff) as u8)`.
The argument is a u16 value; the `as u8` truncations are the `% 256`. -/
def port_to_bytes (port : Nat) : Nat × Nat :=
  (port / 256 % 256, port % 256)

/-- From src/helpers.rs, Helpers::get_socks_reply (lines 80-89): maps an OS error
number (raw i32) to a SOCKS reply code.  The Rust match on integer literals is
rendered as the equivalent sequential equality tests, arm for arm. -/
def get_socks_reply (error : Int) : Nat :=
  if error = 0 then 0x00
  else if error = 10050 ∨ error = 10051 then 0x03
  else if error = 10064 ∨ error = 11001 ∨ error = 10065 then 0x04
  else if error = 10061 then 0x05
  else if error = 10060 then 0x06
  else 0x01

/-- From src/connection.rs, Connection::establish_connect_request (lines 159-162 and
174-177): the error number captured from a failed resolution or connect is
`match e.raw_os_error() { Some(i) => i, None => 0 }`. -/
def os_error_code (e : Option Int) : Int :=
  match e with
  | some i => i
  | none => 0

/-- Model of std::net::IpAddr: an IPv4 address as its 32-bit big-endian value, or an
IPv6 address as its 128-bit big-endian value. -/
inductive IpAddr where
  | V4 (v : Nat)
  | V6 (v : Nat)
deriving DecidableEq

/-- Octets of an Ipv4Addr (Ipv4Addr::octets), big-endian. -/
def ipv4_octets (v : Nat) : List Nat :=
  [v / 2 ^ 24 % 256, v / 2 ^ 16 % 256, v / 2 ^ 8 % 256, v % 256]

/-- Octets of an Ipv6Addr (Ipv6Addr::octets), big-endian. -/
def ipv6_octets (v : Nat) : List Nat :=
  [v / 2 ^ 120 % 256, v / 2 ^ 112 % 256, v / 2 ^ 104 % 256, v / 2 ^ 96 % 256,
   v / 2 ^ 88 % 256, v / 2 ^ 80 % 256, v / 2 ^ 72 % 256, v / 2 ^ 64 % 256,
   v / 2 ^ 56 % 256, v / 2 ^ 48 % 256, v / 2 ^ 40 % 256, v / 2 ^ 32 % 256,
   v / 2 ^ 24 % 256, v / 2 ^ 16 % 256, v / 2 ^ 8 % 256, v % 256]

/-- From src/helpers.rs, Helpers::slice_to_u32 (lines 46-55): big-endian conversion of
exactly four bytes; any other length is an error. -/
def slice_to_u32 (data : List Nat) : Except String Nat :=
  if data.length ≠ 4 then
    Except.error ("There must be exactly four (4) bytes for a conversion to an IPv4.")
  else
    Except.ok (data.getD 0 0 * 2 ^ 24 + data.getD 1 0 * 2 ^ 16 +
               data.getD 2 0 * 2 ^ 8 + data.getD 3 0)

/-- From src/helpers.rs, Helpers::slice_to_u128 (lines 57-78): big-endian conversion of
exactly sixteen bytes; any other length is an error. -/
def slice_to_u128 (data : List Nat) : Except String Nat :=
  if data.length ≠ 16 then
    Except.error ("There must be exactly sixteen (16) bytes for a conversion to an IPv6.")
  else
    Except.ok (data.getD 0 0 * 2 ^ 120 + data.getD 1 0 * 2 ^ 112 +
               data.getD 2 0 * 2 ^ 104 + data.getD 3 0 * 2 ^ 96 +
               data.getD 4 0 * 2 ^ 88 + data.getD 5 0 * 2 ^ 80 +
               data.getD 6 0 * 2 ^ 72 + data.getD 7 0 * 2 ^ 64 +
               data.getD 8 0 * 2 ^ 56 + data.getD 9 0 * 2 ^ 48 +
               data.getD 10 0 * 2 ^ 40 + data.getD 11 0 * 2 ^ 32 +
               data.getD 12 0 * 2 ^ 24 + data.getD 13 0 * 2 ^ 16 +
               data.getD 14 0 * 2 ^ 8 + data.getD 15 0)

/-- From src/helpers.rs (lines 10-13): `Cidr::V4(prefix, mask)` or `Cidr::V6(prefix, mask)`.
The first field is the stored (pre-masked) network number, the second the mask. -/
inductive Cidr where
  | V4 (pfx mask : Nat)
  | V6 (pfx mask : Nat)
deriving DecidableEq

/-- From src/helpers.rs, Cidr::is_trivial (lines 16-21): the CIDR is trivial iff its
mask is zero. -/
def Cidr.is_trivial : Cidr → Bool
  | .V4 _ mask => decide (mask = 0)
  | .V6 _ mask => decide (mask = 0)

/-- From src/helpers.rs, Helpers::mask_ipv4 (lines 109-111):
`slice_to_u32(ip.octets())? & mask`. -/
def mask_ipv4 (ip mask : Nat) : Except String Nat :=
  (slice_to_u32 (ipv4_octets ip)).map (fun x => x &&& mask)

/-- From src/helpers.rs, Helpers::mask_ipv6 (lines 113-115):
`slice_to_u128(ip.octets())? & mask`. -/
def mask_ipv6 (ip mask : Nat) : Except String Nat :=
  (slice_to_u128 (ipv6_octets ip)).map (fun x => x &&& mask)

/-- From src/helpers.rs, Helpers::is_ip_in_cidr (lines 117-132): same-family checks
compare the masked peer address with the stored network number; cross-family checks
are an error. -/
def is_ip_in_cidr (ip_addr : IpAddr) (cidr : Cidr) : Except String Bool :=
  match cidr with
  | .V4 pfx mask =>
    match ip_addr with
    | .V4 ip => (mask_ipv4 ip mask).map (fun x => decide (x = pfx))
    | _ => Except.error ("Cannot check IPv6 addresses against IPv4 CIDRs.")
  | .V6 pfx mask =>
    match ip_addr with
    | .V6 ip => (mask_ipv6 ip mask).map (fun x => decide (x = pfx))
    | _ => Except.error ("Cannot check IPv4 addresses against IPv6 CIDRs.")

/-- Outcome of one admission decision in the acceptor loop. -/
inductive AcceptOutcome where
  | proceed
  | rejectAndContinue
  | fatal
deriving DecidableEq

/-- From src/main.rs, the server loop (lines 98-113).  For one accepted peer:
`if !cidr_is_trivial && !Helpers::is_ip_in_cidr(&remote_ip, &cidr)?`.  A trivial CIDR
short-circuits to the handler; a same-family mismatch logs a warning, shuts the
stream down and continues; the `?` on an is_ip_in_cidr error (a cross-family check)
propagates out of main and terminates the acceptor loop and the process. -/
def accept_step (remote_ip : IpAddr) (cidr : Cidr) : AcceptOutcome :=
  if Cidr.is_trivial cidr then AcceptOutcome.proceed
  else
    match is_ip_in_cidr remote_ip cidr with
    | Except.error _ => AcceptOutcome.fatal
    | Except.ok true => AcceptOutcome.proceed
    | Except.ok false => AcceptOutcome.rejectAndContinue

/-- From src/helpers.rs, Helpers::parse_cidr (line 146): the IPv4 mask
`!(2u32.overflowing_pow(32 - num_mask_bits).0.overflowing_sub(1).0)`.
overflowing_pow is `% 2^32`, overflowing_sub 1 is `+ 2^32 - 1` then `% 2^32`, and
the u32 complement of x is `2^32 - 1 - x`. -/
def mask_v4_code (L : Nat) : Nat :=
  2 ^ 32 - 1 - (2 ^ (32 - L) % 2 ^ 32 + 2 ^ 32 - 1) % 2 ^ 32

/-- From src/helpers.rs, Helpers::parse_cidr (line 156): the IPv6 mask, identically
with 128 bits. -/
def mask_v6_code (L : Nat) : Nat :=
  2 ^ 128 - 1 - (2 ^ (128 - L) % 2 ^ 128 + 2 ^ 128 - 1) % 2 ^ 128

/-- From src/helpers.rs, Helpers::parse_cidr (lines 140-161), after the textual
split and address parsing: validates the advertised mask bit count, computes the
mask, and stores the network number pre-masked.  The copied (and for V6 slightly
wrong) error texts are kept as in the source. -/
def parse_cidr_core (ip_addr : IpAddr) (num_mask_bits : Nat) : Except String Cidr :=
  match ip_addr with
  | .V4 ip =>
    if num_mask_bits > 32 then
      Except.error ("An IPv4 CIDR prefix must have a mask bit length less than or equal to 32.")
    else
      (slice_to_u32 (ipv4_octets ip)).map
        (fun x => Cidr.V4 (x &&& mask_v4_code num_mask_bits) (mask_v4_code num_mask_bits))
  | .V6 ip =>
    if num_mask_bits > 128 then
      Except.error ("An IPv4 CIDR prefix must have a mask bit length less than or equal to 128.")
    else
      (slice_to_u128 (ipv6_octets ip)).map
        (fun x => Cidr.V6 (x &&& mask_v6_code num_mask_bits) (mask_v6_code num_mask_bits))

/-- The mask formula as the specification words it (section 4.4): the bitwise
complement of `(1 <<< (32 - L)) - 1`, modulo 2 to the 32, for the IPv4 family. -/
def mask_v4_specified (L : Nat) : Nat :=
  2 ^ 32 - 1 - (2 ^ (32 - L) - 1) % 2 ^ 32

/-- The mask formula as the specification words it, for the IPv6 family. -/
def mask_v6_specified (L : Nat) : Nat :=
  2 ^ 128 - 1 - (2 ^ (128 - L) - 1) % 2 ^ 128

/-- From src/handshake.rs (lines 2-6): the parsed SOCKS5 greeting. -/
structure Handshake where
  version : Nat
  num_methods : Nat
  methods : List Nat
deriving DecidableEq

/-- From src/handshake.rs, Handshake::from_data (lines 9-15): reads `data[0]`,
`data[1]` and the slice `data[2..2 + num_methods]` with no bounds check of its own.
In Rust an out-of-range index or slice panics; the panic is modelled as none.  The
guard `2 + data[1] <= data.len()` is exactly the condition under which the source
does not panic (it also covers the `data[0]` and `data[1]` indexing). -/
def Handshake.from_data (data : List Nat) : Option Handshake :=
  if 2 + data.getD 1 0 ≤ data.length then
    some { version := data.getD 0 0
           num_methods := data.getD 1 0
           methods := (data.drop 2).take (data.getD 1 0) }
  else
    none

/-- From src/connection.rs, Connection::perform_handshake (lines 111-132).  The
arguments are the leased buffer contents after the single read and the byte count
that read returned.  The source checks `read == 0`, then calls
`Handshake::from_data(buffer)` on the WHOLE buffer (not the read part), then
rejects version different from 5; only then does it write the two bytes 5, 0.
The result is the bytes written paired with the parsed greeting; none means the
connection ends with no bytes written (error return or panic). -/
def perform_handshake (buffer : List Nat) (read : Nat) : Option (List Nat × Handshake) :=
  if read = 0 then none
  else
    match Handshake.from_data buffer with
    | none => none
    | some handshake =>
      if handshake.version ≠ 5 then none
      else some ([5, 0], handshake)

/-- From src/connection.rs, Connection::establish_connect_request (line 150): the
egress socket is bound to `format!("{}:{}", endpoint_interface, 0)`, so the
SocketAddr the reply is built from always carries port 0. -/
def local_bind_port : Nat := 0

/-- From src/connection.rs, Connection::establish_connect_request (lines 181-217):
the SOCKS reply, built from the requested local bind address (NOT from the bound
socket), the port of that address (always 0), and the reply code mapped from the
captured error number.  IPv4 yields 10 bytes, IPv6 yields 22 bytes. -/
def connect_reply (local_ip : IpAddr) (error : Int) : List Nat :=
  let reply_field := get_socks_reply error
  let ph := (port_to_bytes local_bind_port).1
  let pl := (port_to_bytes local_bind_port).2
  match local_ip with
  | .V4 v => [5, reply_field, 0, 1] ++ ipv4_octets v ++ [ph, pl]
  | .V6 v => [5, reply_field, 0, 4] ++ ipv6_octets v ++ [ph, pl]

/-- Result of one pump loop iteration: whether the direction returns, and whether it
sends the one-shot cancellation signal to the opposite direction as it does. -/
structure StepOut where
  exit : Bool
  notify : Bool
deriving DecidableEq

/-- One resolution of the select between the read and the idle timer in a pump loop
iteration.  readOk carries the byte count the read returned and whether the
following write succeeded; readErr is a failed read; timerFired means the timer won
the select. -/
inductive SelectOutcome where
  | readOk (n : Nat) (write_ok : Bool)
  | readErr
  | timerFired
deriving DecidableEq

/-- From src/pump.rs, Pump::run_pump (lines 48-73), one loop iteration.  A read
error is collapsed by `read_result.unwrap_or(0)` into a zero-byte read; the write
result is discarded by `unwrap_or(0)` (so write_ok is ignored); a zero-byte read
notifies the opposite direction and returns; otherwise the iteration ends with the
non-blocking poll of the cancellation receiver.  The timer outcome reaches only
that poll: nothing in the timer branch returns. -/
def pump_step (cancelled : Bool) : SelectOutcome → StepOut
  | .readOk n _write_ok =>
    if n = 0 then { exit := true, notify := true }
    else if cancelled then { exit := true, notify := false }
    else { exit := false, notify := false }
  | .readErr => { exit := true, notify := true }
  | .timerFired =>
    if cancelled then { exit := true, notify := false }
    else { exit := false, notify := false }

/-- Iterates pump_step over a list of select outcomes with a fixed cancellation
state; true iff the direction has terminated after consuming the events. -/
def pump_run (cancelled : Bool) : List SelectOutcome → Bool
  | [] => false
  | e :: es => if (pump_step cancelled e).exit then true else pump_run cancelled es

/-- One resolution of the select in a CustomPump loop iteration: byte count read
plus the success of the following write_all and flush, or a read error, or the
timer winning the select. -/
inductive CustomEvent where
  | readOk (n : Nat) (write_ok flush_ok : Bool)
  | readErr
  | timerFired
deriving DecidableEq

/-- From src/custom_pump.rs, CustomPump::run_pump (lines 51-106), one loop
iteration.  A zero-byte read notifies and returns; a write_all error returns
without notifying; a flush error returns without notifying; a read error returns
without notifying; the timer outcome reaches only the cancellation poll. -/
def custom_pump_step (cancelled : Bool) : CustomEvent → StepOut
  | .readOk n write_ok flush_ok =>
    if n = 0 then { exit := true, notify := true }
    else if write_ok = false then { exit := true, notify := false }
    else if flush_ok = false then { exit := true, notify := false }
    else if cancelled then { exit := true, notify := false }
    else { exit := false, notify := false }
  | .readErr => { exit := true, notify := false }
  | .timerFired =>
    if cancelled then { exit := true, notify := false }
    else { exit := false, notify := false }

/-- From src/copy_pump.rs, CopyPump::run_pumps_as_copy (lines 23-47): a select
between (the select of the two tokio::io::copy relays) and a single sleep of
read_timeout milliseconds armed once when the pump starts and never reset by
traffic.  The parameter pumps_done_at is the instant, in milliseconds from pump
start, at which the copy side of the select first completes (none if it never
does); the timer side completes at read_timeout.  The source returns Ok when the
copy side wins and the error Timed out when the timer wins. -/
def run_pumps_as_copy (pumps_done_at : Option Nat) (read_timeout : Nat) : Except String Unit :=
  match pumps_done_at with
  | some t => if t < read_timeout then Except.ok () else Except.error ("Timed out.")
  | none => Except.error ("Timed out.")

/-- From src/buffer_pool.rs: the pool state, one entry per allocated buffer slot,
holding the number of outstanding lease handles on that slot.  The Arc strong
count of a slot is that number plus one (the reference held by the pool itself). -/
def pool_ref_count (handles : Nat) : Nat := handles + 1

/-- From src/buffer_pool.rs, BufferPool::lease (lines 14-36): a linear scan locates
the first slot whose Arc strong count is below 2 (no outstanding handle); on a miss
a new slot is appended; the returned handle raises the count of the chosen slot by
one. -/
def pool_lease (bs : List Nat) : List Nat :=
  match bs.findIdx? (fun c => decide (pool_ref_count c < 2)) with
  | some k => bs.set k (bs.getD k 0 + 1)
  | none => bs ++ [1]

/-- Dropping one outstanding lease handle of slot i returns it to the pool: the
Arc strong count falls by one. -/
def pool_release (bs : List Nat) (i : Nat) : List Nat :=
  bs.set i (bs.getD i 0 - 1)

/-- From src/buffer_pool.rs, BufferPool::leased_count (lines 38-40): the number of
slots whose Arc strong count is at least 2. -/
def leased_count (bs : List Nat) : Nat :=
  (bs.filter (fun c => decide (2 ≤ pool_ref_count c))).length

/-- From src/buffer_pool.rs, BufferPool::total_count (lines 42-44). -/
def total_count (bs : List Nat) : Nat := bs.length

/-- One event in the life of the pool: a lease by the acceptor loop, or the drop of
a handle on slot i. -/
inductive PoolOp where
  | lease
  | release (i : Nat)

/-- Applies one pool event to the pool state. -/
def pool_apply (bs : List Nat) : PoolOp → List Nat
  | .lease => pool_lease bs
  | .release i => pool_release bs i

/-- Runs a sequence of pool events from the empty pool BufferPool::new builds. -/
def pool_run (ops : List PoolOp) : List Nat :=
  ops.foldl pool_apply []

/-! Helper lemmas. -/

/-- Masking twice with the same mask is masking once. -/
theorem land_mask_absorb (x m : Nat) : (x &&& m) &&& m = x &&& m := by
  rw [Nat.land_assoc]
  congr 1
  exact Nat.eq_of_testBit_eq (fun i => by simp [Nat.testBit_land])

/-- The version field a successful Handshake::from_data returns is the first buffer
byte. -/
theorem from_data_version {data : List Nat} {hs : Handshake}
    (h : Handshake.from_data data = some hs) : hs.version = data.getD 0 0 := by
  unfold Handshake.from_data at h
  split at h
  · cases h
    rfl
  · exact Option.noConfusion h

/-! Claim theorems. -/

/-- C1: the claim says a CONNECT whose dial fails with an error carrying no OS error
number gets SOCKS reply code 5 (connection refused).  The code
(connection.rs lines 159-162 and 174-177) maps the missing OS number to error 0,
and Helpers::get_socks_reply maps 0 to reply code 0, SUCCEEDED, not 5; the handler
then passes the `error != 0` guard and panics at `endpoint_socket.unwrap()`.  This
theorem evaluates the embedded code at that failing input. -/
theorem dial_failure_without_os_number :
    get_socks_reply (os_error_code none) = 0 ∧ get_socks_reply (os_error_code none) ≠ 5 := by
  decide

/-- C2: the claim says an idle direction terminates after idle_timeout_ms and that
the timer does not kill a direction while bytes keep arriving.  In
Pump::run_pump the timer branch of the select only polls cancellation: with no
cancellation pending, any number of consecutive timer expiries leaves the
direction running (first conjunct).  In CopyPump::run_pumps_as_copy the single
timer is armed once at pump start and never reset, so whenever the copy relays
are still running at read_timeout (bytes still arriving), the pump is torn down
with the Timed out error (second conjunct). -/
theorem idle_timer_against_pump_code :
    (∀ n : Nat, pump_run false (List.replicate n SelectOutcome.timerFired) = false) ∧
    (∀ t read_timeout : Nat, read_timeout ≤ t →
      run_pumps_as_copy (some t) read_timeout = Except.error ("Timed out.")) := by
  constructor
  · intro n
    induction n with
    | zero => rfl
    | succ n ih => simpa [pump_run, pump_step, List.replicate_succ] using ih
  · intro t rt h
    simp [run_pumps_as_copy, if_neg (Nat.not_lt.mpr h)]

/-- Witness for C2: three straight timer expiries leave a direction running, and a
copy pump whose relays are still busy at 6000 ms with a 5000 ms timeout is torn
down. -/
theorem idle_timer_against_pump_code_witness :
    pump_run false (List.replicate 3 SelectOutcome.timerFired) = false ∧
    run_pumps_as_copy (some 6000) 5000 = Except.error ("Timed out.") :=
  ⟨idle_timer_against_pump_code.1 3, idle_timer_against_pump_code.2 6000 5000 (by decide)⟩

/-- C6 counterexample: in Pump::run_pump the write result is discarded by
`unwrap_or(0)`, so after a 1-byte read whose write errored, the direction does
NOT terminate (exit is false), refuting the claim for this pump. -/
theorem pump_write_error_not_terminal :
    pump_step false (SelectOutcome.readOk 1 false) = { exit := false, notify := false } := by
  decide

/-- C6 amended: in CustomPump::run_pump a write_all error, and likewise a flush
error, terminates the direction without signalling cancellation; in
Pump::run_pump the write result is discarded and a direction that read n+1 bytes
continues (and never notifies) regardless of the write outcome, unless already
cancelled. -/
theorem write_error_direction_behavior :
    (∀ (c : Bool) (n : Nat) (f : Bool),
      custom_pump_step c (CustomEvent.readOk (n + 1) false f) =
        { exit := true, notify := false }) ∧
    (∀ (c : Bool) (n : Nat),
      custom_pump_step c (CustomEvent.readOk (n + 1) true false) =
        { exit := true, notify := false }) ∧
    (∀ (n : Nat) (w : Bool),
      pump_step false (SelectOutcome.readOk (n + 1) w) =
        { exit := false, notify := false }) := by
  refine ⟨?_, ?_, ?_⟩ <;> intros <;> simp [custom_pump_step, pump_step]

/-- C7 counterexample: the claim says the POSIX equivalents map to the same reply
codes as their WinSock counterparts; ECONNREFUSED is 111 on Linux and its WinSock
counterpart 10061 maps to 5, but the code maps 111 through the default arm to 1. -/
theorem posix_errno_not_mapped :
    get_socks_reply 111 = 1 ∧ get_socks_reply 111 ≠ 5 := by
  decide

/-- C7 amended: the mapping is total over the WinSock numbers exactly as claimed,
0 maps to 0 (succeeded), and EVERY other number, the POSIX equivalents
ENETUNREACH 101, EHOSTUNREACH 113, ECONNREFUSED 111 and ETIMEDOUT 110 included,
falls to the default arm and maps to 1. -/
theorem get_socks_reply_table :
    get_socks_reply 0 = 0 ∧
    get_socks_reply 10050 = 3 ∧ get_socks_reply 10051 = 3 ∧
    get_socks_reply 10064 = 4 ∧ get_socks_reply 10065 = 4 ∧ get_socks_reply 11001 = 4 ∧
    get_socks_reply 10061 = 5 ∧ get_socks_reply 10060 = 6 ∧
    get_socks_reply 101 = 1 ∧ get_socks_reply 113 = 1 ∧
    get_socks_reply 111 = 1 ∧ get_socks_reply 110 = 1 ∧
    (∀ e : Int, e ∉ ([0, 10050, 10051, 10060, 10061, 10064, 10065, 11001] : List Int) →
      get_socks_reply e = 1) := by
  refine ⟨by decide, by decide, by decide, by decide, by decide, by decide, by decide,
    by decide, by decide, by decide, by decide, by decide, ?_⟩
  intro e he
  simp only [List.mem_cons, List.not_mem_nil, or_false] at he
  push_neg at he
  obtain ⟨h0, h50, h51, h60, h61, h64, h65, h01⟩ := he
  unfold get_socks_reply
  rw [if_neg h0, if_neg (not_or.mpr ⟨h50, h51⟩),
    if_neg (by push_neg; exact ⟨h64, h01, h65⟩), if_neg h61, if_neg h60]

/-- Witness for C7: 12345 is outside the mapped set and yields reply code 1. -/
theorem get_socks_reply_table_witness : get_socks_reply 12345 = 1 :=
  get_socks_reply_table.2.2.2.2.2.2.2.2.2.2.2.2 12345 (by decide)

/-- C3 counterexample: an IPv6 peer checked against a non-trivial IPv4 CIDR makes
is_ip_in_cidr return an error, and the `?` in the server loop propagates it out of
main: the admission check terminates the acceptor loop and the process, refuting
the claim that it never does. -/
theorem cross_family_peer_is_fatal :
    accept_step (IpAddr.V6 1) (Cidr.V4 0 1) = AcceptOutcome.fatal := by
  decide

/-- C3 amended: for every accepted peer of the SAME family as the configured
non-trivial CIDR whose IP does not match it, the acceptor shuts the client socket
down, logs a warning and continues accepting; but a peer whose address family
differs from the family of a non-trivial CIDR makes the admission check terminate
the acceptor loop and the process. -/
theorem admission_outcomes :
    (∀ v pfx mask, mask ≠ 0 →
      is_ip_in_cidr (IpAddr.V4 v) (Cidr.V4 pfx mask) = Except.ok false →
      accept_step (IpAddr.V4 v) (Cidr.V4 pfx mask) = AcceptOutcome.rejectAndContinue) ∧
    (∀ v pfx mask, mask ≠ 0 →
      is_ip_in_cidr (IpAddr.V6 v) (Cidr.V6 pfx mask) = Except.ok false →
      accept_step (IpAddr.V6 v) (Cidr.V6 pfx mask) = AcceptOutcome.rejectAndContinue) ∧
    (∀ v pfx mask, mask ≠ 0 →
      accept_step (IpAddr.V6 v) (Cidr.V4 pfx mask) = AcceptOutcome.fatal) ∧
    (∀ v pfx mask, mask ≠ 0 →
      accept_step (IpAddr.V4 v) (Cidr.V6 pfx mask) = AcceptOutcome.fatal) := by
  refine ⟨?_, ?_, ?_, ?_⟩
  · intro v pfx mask hm hne
    simp [accept_step, Cidr.is_trivial, hm, hne]
  · intro v pfx mask hm hne
    simp [accept_step, Cidr.is_trivial, hm, hne]
  · intro v pfx mask hm
    simp [accept_step, Cidr.is_trivial, hm, is_ip_in_cidr]
  · intro v pfx mask hm
    simp [accept_step, Cidr.is_trivial, hm, is_ip_in_cidr]

/-- Witness for C3: the peer 0.0.0.0 does not match the CIDR slot
network 1 mask 1 and is rejected with the loop continuing, while an IPv6 peer
against the same IPv4 CIDR is fatal. -/
theorem admission_outcomes_witness :
    accept_step (IpAddr.V4 0) (Cidr.V4 1 1) = AcceptOutcome.rejectAndContinue ∧
    accept_step (IpAddr.V6 7) (Cidr.V4 1 1) = AcceptOutcome.fatal :=
  ⟨admission_outcomes.1 0 1 1 (by decide) (by decide),
   admission_outcomes.2.2.1 7 1 1 (by decide)⟩

/-- C4 counterexample: the greeting buffer starts 5, 5, so 2 + num_methods is 7,
yet the read delivered only 2 bytes, a truncated greeting; the claim says the
server closes without writing, but the code never compares the read count with
num_methods: it parses stale buffer bytes as methods and answers 5, 0. -/
theorem truncated_greeting_gets_reply :
    (2 : Nat) < 2 + List.getD [5, 5, 0, 0, 0, 0, 0, 0, 0, 0] 1 0 ∧
    perform_handshake [5, 5, 0, 0, 0, 0, 0, 0, 0, 0] 2 =
      some ([5, 0], { version := 5, num_methods := 5, methods := [0, 0, 0, 0, 0] }) := by
  decide

/-- C4 amended: if the first read returns zero bytes, or the first buffer byte
(the version) is not 5, the server closes without writing any bytes; if the read
returned at least one byte and the version byte is 5, the server writes exactly
the two bytes 5, 0 whenever Handshake::from_data does not panic, REGARDLESS of
whether the greeting was truncated (the advertised method count is never compared
with the read count). -/
theorem handshake_first_message_behavior (buffer : List Nat) (read : Nat) :
    (read = 0 ∨ buffer.getD 0 0 ≠ 5 → perform_handshake buffer read = none) ∧
    (read ≠ 0 → buffer.getD 0 0 = 5 →
      perform_handshake buffer read =
        (Handshake.from_data buffer).map (fun h => ([5, 0], h))) := by
  constructor
  · intro h
    unfold perform_handshake
    rcases h with h0 | hv
    · simp [h0]
    · by_cases hr : read = 0
      · simp [hr]
      · rw [if_neg hr]
        cases hfd : Handshake.from_data buffer with
        | none => rfl
        | some hs =>
          have hver := from_data_version hfd
          show (if hs.version ≠ 5 then (none : Option (List Nat × Handshake))
                else some ([5, 0], hs)) = none
          rw [if_pos (show hs.version ≠ 5 by rw [hver]; exact hv)]
  · intro hr hv
    unfold perform_handshake
    rw [if_neg hr]
    cases hfd : Handshake.from_data buffer with
    | none => rfl
    | some hs =>
      have hver := from_data_version hfd
      have h5 : hs.version = 5 := hver.trans hv
      show (if hs.version ≠ 5 then (none : Option (List Nat × Handshake))
            else some ([5, 0], hs)) = Option.map (fun h => ([5, 0], h)) (some hs)
      rw [if_neg (not_not_intro h5)]
      rfl

/-- Witness for C4: a version-4 greeting is closed without bytes written, and a
well-formed version-5 greeting with one method is answered with 5, 0. -/
theorem handshake_first_message_behavior_witness :
    perform_handshake [4, 1, 0] 1 = none ∧
    perform_handshake [5, 1, 0, 0] 1 =
      (Handshake.from_data [5, 1, 0, 0]).map (fun h => ([5, 0], h)) :=
  ⟨(handshake_first_message_behavior [4, 1, 0] 1).1 (Or.inr (by decide)),
   (handshake_first_message_behavior [5, 1, 0, 0] 1).2 (by decide) (by decide)⟩

/-- C5 counterexample: the reply port field always holds the two bytes 0, 0, the
port of the requested bind address endpoint_interface:0, while the egress socket,
bound with port 0, actually uses an OS-assigned ephemeral port, which is never 0
(shown here for the representative actual port 4242): the field does not contain
the port actually used. -/
theorem connect_reply_port_never_actual :
    (connect_reply (IpAddr.V4 0) 0).drop 8 = [0, 0] ∧
    [(port_to_bytes 4242).1, (port_to_bytes 4242).2] ≠ [0, 0] := by
  decide

/-- C5 amended: for every parseable CONNECT request the server emits exactly one
reply, 10 bytes when the egress bind address is IPv4 and 22 when IPv6, whose
address type and bound-address field hold the family and octets of the configured
egress bind IP (the address requested for the bind) and whose bound-port field
holds 0, the port of the requested bind address, not the OS-assigned ephemeral
port; the reply code field carries the mapped code. -/
theorem connect_reply_shape (v : Nat) (e : Int) :
    (connect_reply (IpAddr.V4 v) e).length = 10 ∧
    (connect_reply (IpAddr.V6 v) e).length = 22 ∧
    (connect_reply (IpAddr.V4 v) e).getD 3 0 = 1 ∧
    (connect_reply (IpAddr.V6 v) e).getD 3 0 = 4 ∧
    ((connect_reply (IpAddr.V4 v) e).drop 4).take 4 = ipv4_octets v ∧
    ((connect_reply (IpAddr.V6 v) e).drop 4).take 16 = ipv6_octets v ∧
    (connect_reply (IpAddr.V4 v) e).drop 8 = [0, 0] ∧
    (connect_reply (IpAddr.V6 v) e).drop 20 = [0, 0] ∧
    (connect_reply (IpAddr.V4 v) e).getD 1 0 = get_socks_reply e ∧
    (connect_reply (IpAddr.V6 v) e).getD 1 0 = get_socks_reply e := by
  refine ⟨?_, ?_, ?_, ?_, ?_, ?_, ?_, ?_, ?_, ?_⟩ <;>
    simp [connect_reply, ipv4_octets, ipv6_octets, port_to_bytes, local_bind_port]

/-- C8: Handshake::from_data performs no bounds check of its own: for every byte
slice with at least 2 bytes but fewer than 2 + data[1] bytes, the slice
`data[2..2 + data[1]]` is out of range and the call panics (modelled as none)
instead of returning an error; and Connection::perform_handshake hands it the
WHOLE leased buffer, so its result does not depend on how many bytes the first
read actually delivered (for any two nonzero read counts the outcome is
identical). -/
theorem from_data_unguarded :
    (∀ data : List Nat, 2 ≤ data.length → data.length < 2 + data.getD 1 0 →
      Handshake.from_data data = none) ∧
    (∀ (buffer : List Nat) (r1 r2 : Nat), r1 ≠ 0 → r2 ≠ 0 →
      perform_handshake buffer r1 = perform_handshake buffer r2) := by
  constructor
  · intro data h2 hlt
    unfold Handshake.from_data
    rw [if_neg (by omega)]
  · intro buffer r1 r2 h1 h2
    unfold perform_handshake
    rw [if_neg h1, if_neg h2]

/-- Witness for C8: the two-byte greeting 5, 9 advertises nine methods and panics
in from_data, and perform_handshake gives the same outcome for read counts 1
and 2 on the same buffer. -/
theorem from_data_unguarded_witness :
    Handshake.from_data [5, 9] = none ∧
    perform_handshake [5, 0, 0] 1 = perform_handshake [5, 0, 0] 2 :=
  ⟨from_data_unguarded.1 [5, 9] (by decide) (by decide),
   from_data_unguarded.2 [5, 0, 0] 1 2 (by decide) (by decide)⟩

/-- C9: for every valid mask bit count the mask the code computes with
overflowing u32 or u128 arithmetic equals the complement of
`(2 ^ (FAMILY_BITS - L)) - 1` taken modulo `2 ^ FAMILY_BITS`; the full bit count
yields the all-ones mask, zero yields mask 0; and parse_cidr stores the network
number pre-masked, so masking the stored number again is the identity. -/
theorem parse_cidr_mask_layout :
    (∀ L, L ≤ 32 → mask_v4_code L = mask_v4_specified L) ∧
    mask_v4_code 32 = 2 ^ 32 - 1 ∧ mask_v4_code 0 = 0 ∧
    (∀ L, L ≤ 128 → mask_v6_code L = mask_v6_specified L) ∧
    mask_v6_code 128 = 2 ^ 128 - 1 ∧ mask_v6_code 0 = 0 ∧
    (∀ v L p m, parse_cidr_core (IpAddr.V4 v) L = Except.ok (Cidr.V4 p m) →
      p &&& m = p) ∧
    (∀ v L p m, parse_cidr_core (IpAddr.V6 v) L = Except.ok (Cidr.V6 p m) →
      p &&& m = p) := by
  have h4 : ∀ L < 33, mask_v4_code L = mask_v4_specified L := by decide
  have h6 : ∀ L < 129, mask_v6_code L = mask_v6_specified L := by decide
  refine ⟨fun L hL => h4 L (by omega), by decide, by decide,
    fun L hL => h6 L (by omega), by decide, by decide, ?_, ?_⟩
  · intro v L p m hok
    simp only [parse_cidr_core] at hok
    by_cases hL : L > 32
    · rw [if_pos hL] at hok
      exact Except.noConfusion hok
    · rw [if_neg hL] at hok
      simp only [slice_to_u32] at hok
      rw [if_neg (by simp [ipv4_octets])] at hok
      simp only [Except.map, Except.ok.injEq, Cidr.V4.injEq] at hok
      obtain ⟨hp, hm⟩ := hok
      rw [← hp, ← hm]
      exact land_mask_absorb _ _
  · intro v L p m hok
    simp only [parse_cidr_core] at hok
    by_cases hL : L > 128
    · rw [if_pos hL] at hok
      exact Except.noConfusion hok
    · rw [if_neg hL] at hok
      simp only [slice_to_u128] at hok
      rw [if_neg (by simp [ipv6_octets])] at hok
      simp only [Except.map, Except.ok.injEq, Cidr.V6.injEq] at hok
      obtain ⟨hp, hm⟩ := hok
      rw [← hp, ← hm]
      exact land_mask_absorb _ _

/-- Witness for C9: at mask bit count 8 the code mask equals the specified
formula, and the network number stored for peer address 0 under the /8 mask is
itself fixed by the mask. -/
theorem parse_cidr_mask_layout_witness :
    mask_v4_code 8 = mask_v4_specified 8 ∧ ((0 : Nat) &&& 4278190080) = 0 :=
  ⟨parse_cidr_mask_layout.1 8 (by decide),
   parse_cidr_mask_layout.2.2.2.2.2.2.1 0 8 0 4278190080 (by decide)⟩

/-- C10: for every sequence of BufferPool::lease calls and handle drops, the number
of leased slots never exceeds the number of allocated slots, and in any pool state
in which every outstanding handle has been dropped (every slot count is zero, so
every Arc strong count is 1), leased_count is 0. -/
theorem buffer_pool_counters :
    (∀ ops : List PoolOp, leased_count (pool_run ops) ≤ total_count (pool_run ops)) ∧
    (∀ bs : List Nat, (∀ c ∈ bs, c = 0) → leased_count bs = 0) := by
  constructor
  · intro ops
    exact List.length_filter_le _ _
  · intro bs h
    have hnil : bs.filter (fun c => decide (2 ≤ pool_ref_count c)) = [] := by
      rw [List.filter_eq_nil_iff]
      intro c hc
      have hc0 := h c hc
      subst hc0
      decide
    simp [leased_count, hnil]

/-- Witness for C10: after two leases and one release the leased count is within
the total, and the state with two slots and no outstanding handle reports zero
leases. -/
theorem buffer_pool_counters_witness :
    leased_count (pool_run [PoolOp.lease, PoolOp.lease, PoolOp.release 0]) ≤
      total_count (pool_run [PoolOp.lease, PoolOp.lease, PoolOp.release 0]) ∧
    leased_count [0, 0] = 0 :=
  ⟨buffer_pool_counters.1 [PoolOp.lease, PoolOp.lease, PoolOp.release 0],
   buffer_pool_counters.2 [0, 0] (by decide)⟩

end RustySocks
